import Mathlib

/-!
Verification of the kopf-k8s-sidecar operator core (`app/sidecar.py`).

The Python module is shallowly embedded below:
* `os.getenv` is modelled by an environment `Env : String → Option String`,
  passed explicitly to every function that reads it at call time;
* the module-level constant `LABEL = get_required_env_var('LABEL')` is a
  parameter threaded from process start;
* Python dictionaries (`meta['labels']`, label maps) are association lists;
  a possibly-missing dictionary entry is an `Option`;
* raising an exception is `Except.error`;
* the kopf decorator registrations (`@kopf.on.create/update/resume/delete` with
  `when = kopf.all_ [label_is_satisfied, resource_is_desired]`) are embedded as
  an explicit registration table plus a dispatch function.
-/

namespace Sidecar

/-- The process environment, as read by `os.getenv`. -/
abbrev Env := String → Option String

/-- A Kubernetes label map (`meta['labels']`), a string-to-string dictionary. -/
abbrev Labels := List (String × String)

inductive LogLevel
  | info
  | warning
  | error
deriving DecidableEq, Repr

/-- Modelled from the spec: `get_required_env_var` (from `misc.py`, which is not
under `src/`) returns the variable's value, and its absence is fatal
("fatal if absent"), embedded as `Except.error`. -/
def get_required_env_var (env : Env) (name : String) : Except String String :=
  match env name with
  | none => Except.error (name ++ " is a required environment variable")
  | some v => Except.ok v

/-- Modelled from the spec: `get_env_var_int` (from `misc.py`, not under `src/`)
reads an integer-valued configuration variable ("client/server watch timeout
(seconds)"), falling back to the given default. -/
def get_env_var_int (env : Env) (name : String) (default : Int) : Int :=
  match env name with
  | none => default
  | some s => (s.toInt?).getD default

/-- Modelled from the spec: `get_env_var_bool` (from `misc.py`, not under
`src/`) reads a boolean flag ("event-logging flag", "unique-filenames flag"). -/
def get_env_var_bool (env : Env) (name : String) : Bool :=
  match env name with
  | none => false
  | some s => s == "true"

/-- Embedding of `label_is_satisfied(meta)` from `app/sidecar.py`.
`LABEL` is the module-level constant; `label_value = os.getenv('LABEL_VALUE')`
is read from the environment at each call; `labels` is `meta['labels']` when
the key is present (`'labels' not in meta` is `none`). -/
def label_is_satisfied (LABEL : String) (env : Env) (labels : Option Labels) : Bool :=
  let label_value := env "LABEL_VALUE"
  match labels with
  | none => false
  | some ls =>
    if label_value == none && ls.any (fun kv => kv.1 == LABEL) then
      true
    else if ls.any (fun kv => kv.1 == LABEL && some kv.2 == label_value) then
      true
    else
      false

/-- Embedding of Python's `str.lower()` as used on `body['kind']`
(ASCII case folding; Kubernetes kind names are ASCII). -/
def str_lower (s : String) : String := ⟨s.data.map Char.toLower⟩

/-- Embedding of `resource_is_desired(body)` from `app/sidecar.py`:
`resource = os.getenv('RESOURCE', 'configmap')`, `kind = body['kind'].lower()`,
`return resource in (kind, 'both')`. The `kind` argument is `body['kind']`. -/
def resource_is_desired (env : Env) (kind : String) : Bool :=
  let resource := (env "RESOURCE").getD "configmap"
  let k := str_lower kind
  resource == k || resource == "both"

/-- `resource_is_desired` on a raw body whose `kind` field may be missing:
`body['kind']` raises `KeyError` when the field is absent. -/
def resource_is_desired_of_body (env : Env) (body_kind : Option String) :
    Except String Bool :=
  match body_kind with
  | none => Except.error "KeyError: kind"
  | some kind => Except.ok (resource_is_desired env kind)

inductive EventType
  | create
  | update
  | delete
  | resume
deriving DecidableEq, Repr

inductive FileOp
  | write
  | remove
deriving DecidableEq, Repr

inductive Handler
  | cru_fn
  | delete_fn
deriving DecidableEq, Repr

/-- The File Store operation performed by each handler body:
`cru_fn` awaits `write_file`, `delete_fn` awaits `delete_file`. -/
def Handler.op : Handler → FileOp
  | .cru_fn => FileOp.write
  | .delete_fn => FileOp.remove

/-- A resource-lifecycle event as delivered by kopf: the watched resource the
decorator names (`configmaps` / `secrets`), the lifecycle verb, `body['kind']`,
and `meta['labels']` when present. -/
structure Event where
  resource : String
  type : EventType
  kind : String
  labels : Option Labels
deriving DecidableEq, Repr

/-- The eight decorator registrations of `app/sidecar.py`, in source order. -/
def registrations : List (EventType × String × Handler) :=
  [ (EventType.resume, "configmaps", Handler.cru_fn),
    (EventType.create, "configmaps", Handler.cru_fn),
    (EventType.update, "configmaps", Handler.cru_fn),
    (EventType.resume, "secrets", Handler.cru_fn),
    (EventType.create, "secrets", Handler.cru_fn),
    (EventType.update, "secrets", Handler.cru_fn),
    (EventType.delete, "configmaps", Handler.delete_fn),
    (EventType.delete, "secrets", Handler.delete_fn) ]

/-- `kopf.all_ [label_is_satisfied, resource_is_desired]`: the `when` gate
applied to every registration. -/
def selector (LABEL : String) (env : Env) (e : Event) : Bool :=
  label_is_satisfied LABEL env e.labels && resource_is_desired env e.kind

/-- The File Store operations triggered by one event: kopf invokes every
registered handler whose verb and resource match the event and whose `when`
gate passes. -/
def dispatched_ops (LABEL : String) (env : Env) (e : Event) : List FileOp :=
  (registrations.filter fun r =>
      r.1 == e.type && r.2.1 == e.resource && selector LABEL env e).map
    fun r => r.2.2.op

/-- Outcome of the awaited File Store call inside a handler. -/
inductive OpOutcome
  | ok
  | cancelled
  | error (e : String)
deriving DecidableEq, Repr

/-- What a handler invocation does observably: the exception it lets escape to
the kopf framework (if any) and the log lines it emits. -/
structure HandlerRun where
  raised : Option String
  logs : List (LogLevel × String)
deriving DecidableEq, Repr

/-- Embedding of `cru_fn`: `await write_file(...)` inside
`try ... except asyncio.CancelledError: logger.info(...)`. -/
def cru_fn (body_kind : String) (outcome : OpOutcome) : HandlerRun :=
  match outcome with
  | .ok => { raised := none, logs := [] }
  | .cancelled =>
    { raised := none
      logs := [(LogLevel.info, "Write file cancelled for " ++ body_kind)] }
  | .error e => { raised := some e, logs := [] }

/-- Embedding of `delete_fn`: `await delete_file(...)` inside
`try ... except asyncio.CancelledError: logger.info(...)`. -/
def delete_fn (body_kind : String) (outcome : OpOutcome) : HandlerRun :=
  match outcome with
  | .ok => { raised := none, logs := [] }
  | .cancelled =>
    { raised := none
      logs := [(LogLevel.info, "Delete file cancelled for " ++ body_kind)] }
  | .error e => { raised := some e, logs := [] }

def valid_resources : List String := ["configmap", "secret", "both"]

/-- The operator settings mutated by `startup_tasks`. -/
structure OperatorSettings where
  finalizer : String
  client_timeout : Int
  server_timeout : Int
  posting_enabled : Bool
deriving DecidableEq, Repr

/-- The observable result of a successful `startup_tasks` run. -/
structure StartupResult where
  folder : String
  settings : OperatorSettings
  logs : List (LogLevel × String)
deriving DecidableEq, Repr

/-- Embedding of `startup_tasks` from `app/sidecar.py`. `create_folder` (from
`io_helpers.py`, not under `src/`) is an idempotent filesystem effect with no
logged output modelled here. -/
def startup_tasks (env : Env) : Except String StartupResult := do
  let folder ← get_required_env_var env "FOLDER"
  let resource := (env "RESOURCE").getD "configmap"
  let resource_logs :=
    if resource ∈ valid_resources then []
    else
      [(LogLevel.error,
        "RESOURCE should be one of [configmap, secret, both]. Resources won\x27t match until this is fixed!")]
  let finalizer := "kopf.zalando.org/K8sSidecarFinalizerMarker"
  let client_timeout := get_env_var_int env "WATCH_CLIENT_TIMEOUT" 660
  let server_timeout := get_env_var_int env "WATCH_SERVER_TIMEOUT" 600
  let timeout_logs :=
    [(LogLevel.info,
      "Client watching requests using a timeout of " ++ toString client_timeout ++ " seconds"),
     (LogLevel.info,
      "Server watching requests using a timeout of " ++ toString server_timeout ++ " seconds")]
    ++
    (if client_timeout < server_timeout then
      [(LogLevel.warning,
        "The client timeout (" ++ toString client_timeout
          ++ ") is shorter than the server timeout (" ++ toString server_timeout
          ++ "). Consider increasing the client timeout to be higher")]
    else [])
  let posting_enabled := get_env_var_bool env "EVENT_LOGGING"
  let unique_logs :=
    if get_env_var_bool env "UNIQUE_FILENAMES" then
      [(LogLevel.info, "Unique filenames will be enforced.")]
    else []
  Except.ok
    { folder := folder
      settings :=
        { finalizer := finalizer
          client_timeout := client_timeout
          server_timeout := server_timeout
          posting_enabled := posting_enabled }
      logs := resource_logs ++ timeout_logs ++ unique_logs }

/-- The whole process: importing the module evaluates
`LABEL = get_required_env_var('LABEL')`, kopf then runs `startup_tasks`, and
only afterwards are events consumed and dispatched. -/
def run_process (env : Env) (events : List Event) : Except String (List FileOp) := do
  let LABEL ← get_required_env_var env "LABEL"
  let _ ← startup_tasks env
  Except.ok (events.map (dispatched_ops LABEL env)).flatten

/-- C1: the label predicate returns false when the label map is absent or
empty; when `LABEL_VALUE` is unset it returns true iff `LABEL` occurs as a
key; when `LABEL_VALUE` is set it returns true iff some entry has key `LABEL`
and the required value; in all other cases it returns false. -/
theorem C1_label_predicate (LABEL : String) (env : Env) :
    label_is_satisfied LABEL env none = false ∧
    label_is_satisfied LABEL env (some []) = false ∧
    (env "LABEL_VALUE" = none →
      ∀ ls : Labels,
        label_is_satisfied LABEL env (some ls) = ls.any fun kv => kv.1 == LABEL) ∧
    (∀ s : String, env "LABEL_VALUE" = some s →
      ∀ ls : Labels,
        label_is_satisfied LABEL env (some ls)
          = ls.any fun kv => kv.1 == LABEL && kv.2 == s) := by
  refine ⟨rfl, ?_, ?_, ?_⟩
  · simp [label_is_satisfied]
  · intro hv ls
    cases h : ls.any (fun kv => kv.1 == LABEL) <;>
      simp [label_is_satisfied, hv, h]
  · intro s hv ls
    cases h : ls.any (fun kv => kv.1 == LABEL && kv.2 == s) <;>
      simp [label_is_satisfied, hv, h]

/-- C1 witness: with the label key `sync` and `LABEL_VALUE` unset, the
predicate on the label map `[("sync", "x")]` equals the key-membership test. -/
theorem C1_label_predicate_witness :
    label_is_satisfied "sync" (fun _ => none) (some [("sync", "x")])
      = List.any [("sync", "x")] (fun kv => kv.1 == "sync") :=
  (C1_label_predicate "sync" (fun _ => none)).2.2.1 rfl [("sync", "x")]

/-- C2: for a configured filter in `{configmap, secret, both}` and either
watched kind, the kind predicate holds iff the filter is `both` or equals the
kind; with no filter configured the behaviour is that of filter `configmap`. -/
theorem C2_kind_predicate (env envd : Env) (F K : String)
    (hF : env "RESOURCE" = some F)
    (hvalid : F ∈ valid_resources)
    (hK : K ∈ ["configmap", "secret"])
    (hd : envd "RESOURCE" = none) :
    resource_is_desired env K = (F == "both" || F == K) ∧
    (∀ K2, resource_is_desired envd K2
      = resource_is_desired (fun _ => some "configmap") K2) := by
  constructor
  · fin_cases hvalid <;> fin_cases hK <;>
      (unfold resource_is_desired; rw [hF]; decide)
  · intro K2
    unfold resource_is_desired
    rw [hd]
    rfl

/-- C2 witness: filter `both` with kind `secret` matches, and the theorem's
hypotheses hold at these concrete values. -/
theorem C2_kind_predicate_witness :
    resource_is_desired (fun _ => some "both") "secret"
        = ("both" == "both" || "both" == "secret") ∧
    (∀ K2, resource_is_desired (fun _ => none) K2
      = resource_is_desired (fun _ => some "configmap") K2) :=
  C2_kind_predicate (fun _ => some "both") (fun _ => none) "both" "secret"
    rfl (by decide) (by decide) rfl

/-- C5 counterexample: on a malformed body whose `kind` field is missing, the
kind predicate raises (`body['kind']` is a `KeyError`), contradicting the
claim that both Selector predicates evaluate without raising. -/
theorem C5_counterexample :
    resource_is_desired_of_body (fun _ => none) none
      = Except.error "KeyError: kind" := rfl

/-- C5 (amended): a missing labels map makes the label predicate evaluate
totally to false without raising, but a missing `kind` field makes the kind
predicate raise a `KeyError`; when `kind` is present the kind predicate
evaluates without raising. -/
theorem C5_missing_fields (LABEL : String) (env : Env) :
    label_is_satisfied LABEL env none = false ∧
    resource_is_desired_of_body env none = Except.error "KeyError: kind" ∧
    (∀ k, resource_is_desired_of_body env (some k)
      = Except.ok (resource_is_desired env k)) :=
  ⟨rfl, rfl, fun _ => rfl⟩

/-- C6: cancellation of the in-flight File Store call is caught by both
handlers, logged at info level, and not re-raised to the caller. -/
theorem C6_cancellation_benign (kind : String) :
    ((cru_fn kind OpOutcome.cancelled).raised = none ∧
      (cru_fn kind OpOutcome.cancelled).logs
        = [(LogLevel.info, "Write file cancelled for " ++ kind)]) ∧
    ((delete_fn kind OpOutcome.cancelled).raised = none ∧
      (delete_fn kind OpOutcome.cancelled).logs
        = [(LogLevel.info, "Delete file cancelled for " ++ kind)]) :=
  ⟨⟨rfl, rfl⟩, ⟨rfl, rfl⟩⟩

/-- C7: any exception other than cancellation raised by the File Store call
propagates out of both handlers to the caller. -/
theorem C7_error_propagation (kind err : String) :
    (cru_fn kind (OpOutcome.error err)).raised = some err ∧
    (delete_fn kind (OpOutcome.error err)).raised = some err :=
  ⟨rfl, rfl⟩

/-- C3: for an event of either watched kind, if the AND of the label and kind
predicates passes then create/update/resume dispatch exactly one File Store
write and delete dispatches exactly one remove; if the gate fails, no
filesystem operation is triggered at all. -/
theorem C3_dispatch (LABEL : String) (env : Env) (e : Event)
    (hres : e.resource = "configmaps" ∨ e.resource = "secrets") :
    (selector LABEL env e = true →
      dispatched_ops LABEL env e
        = [if e.type == EventType.delete then FileOp.remove else FileOp.write]) ∧
    (selector LABEL env e = false → dispatched_ops LABEL env e = []) := by
  obtain ⟨r, ty, k, ls⟩ := e
  simp only at hres
  constructor <;> intro hsel <;>
    rcases hres with h | h <;> subst h <;>
    cases ty <;> simp [dispatched_ops, registrations, hsel, Handler.op]

/-- C3 witness: an in-scope configmap create event dispatches exactly the
write operation. -/
theorem C3_dispatch_witness :
    dispatched_ops "sync" (fun _ => none)
        ⟨"configmaps", EventType.create, "ConfigMap", some [("sync", "x")]⟩
      = [if EventType.create == EventType.delete then FileOp.remove
         else FileOp.write] :=
  (C3_dispatch "sync" (fun _ => none)
      ⟨"configmaps", EventType.create, "ConfigMap", some [("sync", "x")]⟩
      (Or.inl rfl)).1 (by decide)

def env_unset : Env := fun _ => none

def env_prod : Env := fun n => if n = "LABEL_VALUE" then some "prod" else none

def env_other : Env := fun n => if n = "FOLDER" then some "folder" else none

/-- C4 counterexample: `LABEL_VALUE` is read from the environment inside
`label_is_satisfied` at every call, not once at startup: evaluating the
predicate on the same event inputs under an environment where `LABEL_VALUE`
is unset and under one where it is `prod` gives different results. -/
theorem C4_counterexample :
    label_is_satisfied "sync" env_unset (some [("sync", "x")]) ≠
      label_is_satisfied "sync" env_prod (some [("sync", "x")]) := by decide

/-- C4 (amended): only `LABEL` is read once, at module load; `LABEL_VALUE` and
`RESOURCE` are read from the environment at each predicate call, so two
selector evaluations on the same event inputs agree exactly when the
environment values read at call time agree. -/
theorem C4_config_read_per_call (LABEL : String) (env env2 : Env)
    (labels : Option Labels) (kind : String)
    (hv : env "LABEL_VALUE" = env2 "LABEL_VALUE")
    (hr : env "RESOURCE" = env2 "RESOURCE") :
    label_is_satisfied LABEL env labels = label_is_satisfied LABEL env2 labels ∧
    resource_is_desired env kind = resource_is_desired env2 kind := by
  unfold label_is_satisfied resource_is_desired
  rw [hv, hr]
  exact ⟨rfl, rfl⟩

/-- C4 witness: two environments agreeing on `LABEL_VALUE` and `RESOURCE`
(but differing on `FOLDER`) give the same selector results. -/
theorem C4_config_read_per_call_witness :
    label_is_satisfied "sync" env_unset (some [("sync", "x")])
        = label_is_satisfied "sync" env_other (some [("sync", "x")]) ∧
    resource_is_desired env_unset "ConfigMap"
        = resource_is_desired env_other "ConfigMap" :=
  C4_config_read_per_call "sync" env_unset env_other (some [("sync", "x")])
    "ConfigMap" (by decide) (by decide)

/-- C8: if either required configuration value (`FOLDER`, the target directory,
or `LABEL`, the required label key) is absent from the environment, the
process fails fatally before producing any File Store operation. -/
theorem C8_required_config_fatal (env : Env) (events : List Event)
    (h : env "LABEL" = none ∨ env "FOLDER" = none) :
    ∃ msg, run_process env events = Except.error msg := by
  rcases h with h | h
  · exact ⟨"LABEL is a required environment variable",
      by simp [run_process, get_required_env_var, h, Bind.bind, Except.bind]⟩
  · cases hL : env "LABEL" with
    | none =>
      exact ⟨"LABEL is a required environment variable",
        by simp [run_process, get_required_env_var, hL, Bind.bind, Except.bind]⟩
    | some v =>
      exact ⟨"FOLDER is a required environment variable",
        by simp [run_process, startup_tasks, get_required_env_var, h, hL, Bind.bind, Except.bind]⟩

/-- C8 witness: with an empty environment the process fails fatally and
dispatches nothing. -/
theorem C8_required_config_fatal_witness :
    ∃ msg, run_process (fun _ => none) [] = Except.error msg :=
  C8_required_config_fatal (fun _ => none) [] (Or.inl rfl)

def env_bad : Env := fun n =>
  if n = "FOLDER" then some "folder"
  else if n = "RESOURCE" then some "deployment"
  else none

/-- C9 counterexample: with the invalid kind filter `deployment` (and default
timeouts, so no timeout violation), startup completes normally but emits no
warning-level log at all — the invalid filter is logged at error level — so
"startup emits a warning for the violation" fails for this configuration. -/
theorem C9_counterexample :
    ((startup_tasks env_bad).map fun s =>
        s.logs.any fun l => l.1 == LogLevel.warning) = Except.ok false ∧
    ((startup_tasks env_bad).map fun s =>
        s.logs.any fun l => l.1 == LogLevel.error) = Except.ok true ∧
    ((env_bad "RESOURCE").getD "configmap" ∈ valid_resources) = False := by
  refine ⟨rfl, rfl, by simp [env_bad, valid_resources]⟩

/-- Helper: with `FOLDER` present, `startup_tasks` always succeeds, and its
log output is characterised explicitly. -/
theorem startup_tasks_ok (env : Env) (folder : String)
    (hf : env "FOLDER" = some folder) :
    startup_tasks env = Except.ok
      { folder := folder
        settings :=
          { finalizer := "kopf.zalando.org/K8sSidecarFinalizerMarker"
            client_timeout := get_env_var_int env "WATCH_CLIENT_TIMEOUT" 660
            server_timeout := get_env_var_int env "WATCH_SERVER_TIMEOUT" 600
            posting_enabled := get_env_var_bool env "EVENT_LOGGING" }
        logs :=
          (if (env "RESOURCE").getD "configmap" ∈ valid_resources then []
           else
            [(LogLevel.error,
              "RESOURCE should be one of [configmap, secret, both]. Resources won\x27t match until this is fixed!")])
          ++
          [(LogLevel.info,
            "Client watching requests using a timeout of "
              ++ toString (get_env_var_int env "WATCH_CLIENT_TIMEOUT" 660) ++ " seconds"),
           (LogLevel.info,
            "Server watching requests using a timeout of "
              ++ toString (get_env_var_int env "WATCH_SERVER_TIMEOUT" 600) ++ " seconds")]
          ++
          (if get_env_var_int env "WATCH_CLIENT_TIMEOUT" 660 <
              get_env_var_int env "WATCH_SERVER_TIMEOUT" 600 then
            [(LogLevel.warning,
              "The client timeout (" ++ toString (get_env_var_int env "WATCH_CLIENT_TIMEOUT" 660)
                ++ ") is shorter than the server timeout ("
                ++ toString (get_env_var_int env "WATCH_SERVER_TIMEOUT" 600)
                ++ "). Consider increasing the client timeout to be higher")]
          else [])
          ++
          (if get_env_var_bool env "UNIQUE_FILENAMES" then
            [(LogLevel.info, "Unique filenames will be enforced.")]
          else []) } := by
  simp [startup_tasks, get_required_env_var, hf, Bind.bind, Except.bind]

/-- C9 (amended): a kind filter outside `{configmap, secret, both}` is logged
at error level (not as a warning) and startup completes normally; a client
watch timeout shorter than the server watch timeout is logged as a warning
and startup completes normally. -/
theorem C9_invalid_config_nonfatal (env : Env) (folder : String)
    (hf : env "FOLDER" = some folder) :
    (((env "RESOURCE").getD "configmap") ∉ valid_resources →
      ∃ s, startup_tasks env = Except.ok s ∧
        (LogLevel.error,
          "RESOURCE should be one of [configmap, secret, both]. Resources won\x27t match until this is fixed!")
          ∈ s.logs) ∧
    (get_env_var_int env "WATCH_CLIENT_TIMEOUT" 660 <
        get_env_var_int env "WATCH_SERVER_TIMEOUT" 600 →
      ∃ s, startup_tasks env = Except.ok s ∧
        s.logs.any (fun l => l.1 == LogLevel.warning) = true) := by
  constructor
  · intro hr
    refine ⟨_, startup_tasks_ok env folder hf, ?_⟩
    simp [if_neg hr]
  · intro ht
    refine ⟨_, startup_tasks_ok env folder hf, ?_⟩
    simp [if_pos ht]

/-- C9 witness: under `env_bad` the invalid filter produces the error-level
log entry while startup succeeds. -/
theorem C9_invalid_config_nonfatal_witness :
    ∃ s, startup_tasks env_bad = Except.ok s ∧
      (LogLevel.error,
        "RESOURCE should be one of [configmap, secret, both]. Resources won\x27t match until this is fixed!")
        ∈ s.logs :=
  (C9_invalid_config_nonfatal env_bad "folder" rfl).1 (by decide)

/-- Helper: `Char.toLower` of a valid code point recovers the code point. -/
theorem toNat_ofNat_of_valid {n : Nat} (h : n.isValidChar) :
    (Char.ofNat n).toNat = n := by
  simp only [Char.ofNat]
  rw [dif_pos h]
  rfl

/-- Helper: `Char.toLower` never yields an ASCII uppercase letter. -/
theorem toLower_not_upper (c : Char) :
    (Char.toLower c).toNat < 65 ∨ 90 < (Char.toLower c).toNat := by
  simp only [Char.toLower]
  split
  · next h =>
    rw [toNat_ofNat_of_valid (Or.inl (by omega))]
    omega
  · next h =>
    omega

/-- Helper: no character of `str_lower s` is an ASCII uppercase letter. -/
theorem str_lower_no_upper (s : String) (c : Char)
    (hc : c ∈ (str_lower s).data) : c.toNat < 65 ∨ 90 < c.toNat := by
  simp only [str_lower] at hc
  obtain ⟨a, _, rfl⟩ := List.mem_map.mp hc
  exact toLower_not_upper a

/-- C10: the kind predicate lowercases the event's kind but compares the
configured filter verbatim: any filter containing an ASCII uppercase letter
matches no kind at all, while the event kind itself is matched
case-insensitively (kind `ConfigMap` matches filter `configmap`). -/
theorem C10_filter_case_sensitive (env : Env) (F kind : String)
    (hF : env "RESOURCE" = some F)
    (hup : ∃ c ∈ F.data, 65 ≤ c.toNat ∧ c.toNat ≤ 90) :
    resource_is_desired env kind = false ∧
    resource_is_desired (fun _ => some "configmap") "ConfigMap" = true := by
  obtain ⟨c, hc, h65, h90⟩ := hup
  constructor
  · unfold resource_is_desired
    rw [hF]
    show (F == str_lower kind || F == "both") = false
    rw [Bool.or_eq_false_iff, beq_eq_false_iff_ne, beq_eq_false_iff_ne]
    constructor
    · intro h
      rw [h] at hc
      rcases str_lower_no_upper kind c hc with hlt | hgt <;> omega
    · intro h
      rw [h] at hc
      have hall : ∀ x ∈ "both".data, x.toNat < 65 ∨ 90 < x.toNat := by decide
      rcases hall c hc with hlt | hgt <;> omega
  · decide

/-- C10 witness: the filter `Both` matches nothing, not even the kind `both`,
while kind `ConfigMap` matches the all-lowercase default filter. -/
theorem C10_filter_case_sensitive_witness :
    resource_is_desired (fun n => if n = "RESOURCE" then some "Both" else none)
        "both" = false ∧
    resource_is_desired (fun _ => some "configmap") "ConfigMap" = true :=
  C10_filter_case_sensitive
    (fun n => if n = "RESOURCE" then some "Both" else none) "Both" "both"
    (by decide) ⟨'B', by decide, by decide⟩

end Sidecar
